import Mathlib

/-!
Verification development for the nuki-web-control bridge access and
normalization layer (`app.py`).  The Python routes (`get_state`,
`send_action`, `action`) and the embedded browser-side JavaScript
(`extractBatteryPercent`, `extractBatteryStatusLabel`, `batteryClass`,
`buildStateSummary`, the normalization in `refreshState`) are shallowly
embedded as total Lean functions over a JSON value type, and the spec's
testable properties are settled against them.
-/

set_option autoImplicit false

namespace NukiWeb

mutual
/-- JSON-like values as produced by `resp.json()` on the Python side and
`res.json()` on the JavaScript side.  Objects are association lists; the
first binding of a key wins on lookup.  Numbers are modelled as integers
(the program only reads and reprints them; no arithmetic happens).
Arrays never occur in any code path exercised here and are omitted. -/
inductive JVal : Type where
  | jnum (n : Int)
  | jstr (s : String)
  | jbool (b : Bool)
  | jnull
  | jobj (fields : JFields)
  deriving DecidableEq

/-- Field list of a JSON object. -/
inductive JFields : Type where
  | fnil
  | fcons (key : String) (val : JVal) (rest : JFields)
  deriving DecidableEq
end

/-- First binding of `key`, as Python dict / JS object lookup. -/
def JFields.lookup : JFields → String → Option JVal
  | .fnil, _ => none
  | .fcons k v rest, key => if k = key then some v else rest.lookup key

/-- Python `key in dict`. -/
def JFields.hasKey (fs : JFields) (key : String) : Bool :=
  (fs.lookup key).isSome

/-- JS property access `v.k`.  On primitives it yields `undefined`
(`none`); on objects it looks the key up.  JS would raise a `TypeError`
on `null.k`, but every access on a possibly-null value in the embedded
code is guarded by a truthiness test, and the entry points are applied
to parsed JSON objects, so the `jnull` case is never reached. -/
def JVal.getField : JVal → String → Option JVal
  | .jobj fs, key => fs.lookup key
  | _, _ => none

/-- Property access lifted to a possibly-`undefined` value. -/
def propOpt (v : Option JVal) (key : String) : Option JVal :=
  match v with
  | some x => x.getField key
  | none => none

/-- JS truthiness of a defined value. -/
def truthy : JVal → Bool
  | .jnum n => n != 0
  | .jstr s => s != ""
  | .jbool b => b
  | .jnull => false
  | .jobj _ => true

/-- JS truthiness, with `undefined` falsy. -/
def truthyOpt : Option JVal → Bool
  | some v => truthy v
  | none => false

/-- Python truthiness of a defined value (differs from JS only on
objects: an empty dict is falsy in Python). -/
def pyTruthy : JVal → Bool
  | .jnum n => n != 0
  | .jstr s => s != ""
  | .jbool b => b
  | .jnull => false
  | .jobj .fnil => false
  | .jobj _ => true

/-- Python truthiness with a missing value (`dict.get` returning `None`)
falsy. -/
def pyTruthyOpt : Option JVal → Bool
  | some v => pyTruthy v
  | none => false

/-- JS string coercion, as used by `+` concatenation in the template's
script (an absent property prints as `undefined`). -/
def jsToStr : Option JVal → String
  | none => "undefined"
  | some (.jnum n) => toString n
  | some (.jstr s) => s
  | some (.jbool true) => "true"
  | some (.jbool false) => "false"
  | some .jnull => "null"
  | some (.jobj _) => "[object Object]"

/-- JS `typeof v === "number"` refined to the numeric value. -/
def jsNumOpt : Option JVal → Option Int
  | some (.jnum n) => some n
  | _ => none

mutual
/-- Python `repr` of a parsed-JSON value, as printed by `str(result)`
for non-string values (`True`, `None`, quoted strings inside dicts). -/
def pyRepr : JVal → String
  | .jnum n => toString n
  | .jstr s => "\x27" ++ s ++ "\x27"
  | .jbool true => "True"
  | .jbool false => "False"
  | .jnull => "None"
  | .jobj fs => "\x7b" ++ pyReprFields fs ++ "\x7d"

/-- Comma-separated `repr` of dict entries. -/
def pyReprFields : JFields → String
  | .fnil => ""
  | .fcons k v .fnil => "\x27" ++ k ++ "\x27: " ++ pyRepr v
  | .fcons k v (.fcons k2 v2 rest) =>
      "\x27" ++ k ++ "\x27: " ++ pyRepr v ++ ", " ++
        pyReprFields (.fcons k2 v2 rest)
end

/-- Python `str` of a parsed-JSON value: the string itself for strings,
`repr` otherwise. -/
def pyStr : JVal → String
  | .jstr s => s
  | v => pyRepr v

end NukiWeb

namespace NukiWeb

/-- Static configuration loaded once at startup from `config.yaml`:
`BRIDGE_HOST`, `BRIDGE_PORT`, `NUKI_ID`, `TOKEN`, `DEVICE_TYPE`. -/
structure Config where
  bridgeHost : String
  bridgePort : Nat
  nukiId : Int
  token : String
  deviceType : Int
  deriving DecidableEq

/-- An outbound HTTP GET as `requests.get(url, params=..., timeout=...)`
assembles it: base URL, query parameters in insertion order, and the
read timeout in seconds. -/
structure Request where
  url : String
  params : List (String × String)
  timeout : Nat
  deriving DecidableEq

/-- The request `get_state` issues: `/lockState` with
`nukiId, deviceType, token` and `timeout=10`. -/
def stateRequest (cfg : Config) : Request :=
  { url := "http://" ++ cfg.bridgeHost ++ ":" ++ toString cfg.bridgePort
             ++ "/lockState",
    params := [("nukiId", toString cfg.nukiId),
               ("deviceType", toString cfg.deviceType),
               ("token", cfg.token)],
    timeout := 10 }

/-- The request `send_action` issues: `/lockAction` with
`nukiId, deviceType, action, token` and `timeout=20`. -/
def actionRequest (cfg : Config) (actionCode : Int) : Request :=
  { url := "http://" ++ cfg.bridgeHost ++ ":" ++ toString cfg.bridgePort
             ++ "/lockAction",
    params := [("nukiId", toString cfg.nukiId),
               ("deviceType", toString cfg.deviceType),
               ("action", toString actionCode),
               ("token", cfg.token)],
    timeout := 20 }

/-- An HTTP response that came back: its status code and the result of
`resp.json()` (`none` when the body is not valid JSON, in which case
`.json()` raises and the generic `except Exception` branch runs). -/
structure HttpResponse where
  status : Nat
  jsonBody : Option JVal
  deriving DecidableEq

/-- What a single `requests.get` call can do, one case per `except`
clause of the source: deliver a response, raise
`requests.exceptions.ConnectionError` (which also covers its
`ConnectTimeout` subclass, matched by the first `except`), raise
`requests.exceptions.Timeout` (read timeout), or raise any other
exception. `HTTPError` is not a transport outcome: in this code it is
raised only by `resp.raise_for_status()`, modelled below, so
`e.response` is always set. -/
inductive TransportOutcome : Type where
  | response (resp : HttpResponse)
  | connectionError
  | timeout
  | otherException
  deriving DecidableEq

/-- The dict literal `{"error": msg}` the bridge helpers return on every
error path. -/
def errObj (msg : String) : JVal :=
  .jobj (.fcons "error" (.jstr msg) .fnil)

/-- `requests.Response.raise_for_status` raises `HTTPError` exactly for
status codes 400-599 (client and server errors); informational and
redirection statuses do not raise. -/
def raisesForStatus (status : Nat) : Bool :=
  decide (400 ≤ status ∧ status < 600)

/-- `get_state()`: build the `/lockState` request from the static
configuration, hand it to the transport, and normalize every failure to
a fixed `{"error": ...}` dict; on success return the parsed JSON body
untouched. -/
def get_state (cfg : Config) (tr : Request → TransportOutcome) : JVal :=
  match tr (stateRequest cfg) with
  | .response resp =>
      if raisesForStatus resp.status then
        errObj ("Bridge returned HTTP " ++ toString resp.status
                  ++ " for /lockState.")
      else
        match resp.jsonBody with
        | some body => body
        | none => errObj "Unexpected error while talking to the bridge (/lockState)."
  | .connectionError =>
      errObj "Bridge unreachable (connection error while calling /lockState)."
  | .timeout =>
      errObj "Bridge timeout while calling /lockState."
  | .otherException =>
      errObj "Unexpected error while talking to the bridge (/lockState)."

/-- `send_action(action)`: same shape as `get_state` against
`/lockAction`, with the action code as an extra query parameter and a
20-second timeout. -/
def send_action (cfg : Config) (actionCode : Int)
    (tr : Request → TransportOutcome) : JVal :=
  match tr (actionRequest cfg actionCode) with
  | .response resp =>
      if raisesForStatus resp.status then
        errObj ("Bridge returned HTTP " ++ toString resp.status
                  ++ " for /lockAction.")
      else
        match resp.jsonBody with
        | some body => body
        | none => errObj "Unexpected error while talking to the bridge (/lockAction)."
  | .connectionError =>
      errObj "Bridge unreachable (connection error while calling /lockAction)."
  | .timeout =>
      errObj "Bridge timeout while calling /lockAction."
  | .otherException =>
      errObj "Unexpected error while talking to the bridge (/lockAction)."

end NukiWeb

namespace NukiWeb

/-- The subset of a `STRINGS[lang]` table that the `action` view reads:
`unknown_command_msg`, `bridge_error_prefix`, the `ok_msg` template (a
function of the formatted `batteryCritical` value), and
`bridge_response_prefix`. -/
structure UiStrings where
  unknownCommandMsg : String
  bridgeErrorLead : String
  okMsgOf : String → String
  bridgeResponseLead : String

/-- The English entries of `STRINGS`. -/
def enStrings : UiStrings :=
  { unknownCommandMsg := "Error: unknown command.",
    bridgeErrorLead := "Error: ",
    okMsgOf := fun bc => "OK (batteryCritical=" ++ bc ++ ")",
    bridgeResponseLead := "Bridge response: " }

/-- The Italian entries of `STRINGS`. -/
def itStrings : UiStrings :=
  { unknownCommandMsg := "Errore: comando sconosciuto.",
    bridgeErrorLead := "Errore: ",
    okMsgOf := fun bc => "OK (batteryCritical=" ++ bc ++ ")",
    bridgeResponseLead := "Risposta bridge: " }

/-- The `STRINGS` table: exactly the keys `"en"` and `"it"` exist. -/
def STRINGS (lang : String) : Option UiStrings :=
  if lang = "en" then some enStrings
  else if lang = "it" then some itStrings
  else none

/-- `resolve_lang()`: `request.args.get("lang") or DEFAULT_LANG or "en"`
(Python `or` chains on truthiness, so an empty string falls through),
then fall back to `"en"` when the resolved code is not in `STRINGS`. -/
def resolve_lang (defaultLang : String) (langArg : Option String) : String :=
  let lang :=
    match langArg with
    | some s => if s ≠ "" then s
                else if defaultLang ≠ "" then defaultLang else "en"
    | none => if defaultLang ≠ "" then defaultLang else "en"
  if (STRINGS lang).isSome then lang else "en"

/-- `STRINGS[lang]` for a language resolved by `resolve_lang`; the index
never fails there, so the default branch is unreachable. -/
def uiOf (lang : String) : UiStrings :=
  (STRINGS lang).getD enStrings

/-- The dispatch table of the `action` view: exposed command names to
wire action codes.  The entry for wire code 5 (`lock-and-go-then-
unlatch`) is commented out in the source. -/
def mapping : List (String × Int) :=
  [("sblocca", 1), ("chiudi", 2), ("apri", 3), ("lockngo", 4)]

/-- Python `key in value` for the values a parsed JSON body can take:
key membership on dicts, substring test on strings; on numbers,
booleans and `None` the `in` operator raises `TypeError`. -/
def pyIn (key : String) : JVal → Option Bool
  | .jobj fs => some (fs.hasKey key)
  | .jstr s => some ((s.splitOn key).length > 1)
  | _ => none

/-- Python `value[key]`: defined only on dicts holding the key. -/
def pyGetItem (v : JVal) (key : String) : Option JVal :=
  match v with
  | .jobj fs => fs.lookup key
  | _ => none

/-- The redirect the `action` view returns:
`redirect(url_for("index", msg=..., lang=...))`. -/
structure Redirect where
  msg : String
  lang : String
  deriving DecidableEq

/-- The `action(cmd)` view.  The first component lists the upstream
requests issued during the call (empty for a locally rejected command);
the second is the redirect produced, `none` on the paths where the
Python would raise (`in`/`.get` on a non-dict bridge body) and the
framework would answer 500. -/
def action (cfg : Config) (defaultLang : String) (langArg : Option String)
    (cmd : String) (tr : Request → TransportOutcome) :
    List Request × Option Redirect :=
  let lang := resolve_lang defaultLang langArg
  let ui := uiOf lang
  match mapping.lookup cmd with
  | none => ([], some ⟨ui.unknownCommandMsg, lang⟩)
  | some code =>
      let result := send_action cfg code tr
      let msg : Option String :=
        match pyIn "error" result with
        | none => none
        | some true =>
            (pyGetItem result "error").map
              (fun e => ui.bridgeErrorLead ++ pyStr e)
        | some false =>
            match result with
            | .jobj fs =>
                if pyTruthyOpt (fs.lookup "success") then
                  some (ui.okMsgOf (pyStr ((fs.lookup "batteryCritical").getD
                    (.jbool false))))
                else
                  some (ui.bridgeResponseLead ++ pyStr result)
            | _ => none
      ([actionRequest cfg code], msg.map (fun m => ⟨m, lang⟩))

end NukiWeb

namespace NukiWeb

/-- `extractBatteryPercent(data)`: the four historical battery
encodings tried in source order, each guarded by
`typeof ... === "number"`; the nested branch additionally requires
`data.batteryChargeState` to be truthy before dereferencing it. -/
def extractBatteryPercent (data : JVal) : Option Int :=
  match jsNumOpt (data.getField "batteryCharge") with
  | some n => some n
  | none =>
    match jsNumOpt (data.getField "batteryChargeState") with
    | some n => some n
    | none =>
      match (if truthyOpt (data.getField "batteryChargeState") then
               jsNumOpt (propOpt (data.getField "batteryChargeState")
                 "chargeLevel")
             else none) with
      | some n => some n
      | none => jsNumOpt (data.getField "batteryLevel")

/-- `extractBatteryStatusLabel(data)`: the truthy
`data.batteryChargeState.state` value, else `null` (`none`). -/
def extractBatteryStatusLabel (data : JVal) : Option JVal :=
  match data.getField "batteryChargeState" with
  | some bcs =>
      if truthy bcs then
        match bcs.getField "state" with
        | some st => if truthy st then some st else none
        | none => none
      else none
  | none => none

/-- `batteryClass(battPct, batteryCritical)`: strict `=== true` on the
raw critical flag wins; a `null`/`undefined` percent yields the empty
class string (the "unknown" severity, rendered with no color class);
then the 20/40 thresholds. -/
def batteryClass (battPct : Option Int) (batteryCritical : Option JVal) :
    String :=
  if batteryCritical = some (.jbool true) then "danger"
  else
    match battPct with
    | none => ""
    | some p => if p ≤ 20 then "danger" else if p ≤ 40 then "warn" else "ok"

/-- The localized labels interpolated into the template's script:
`js_label_state`, `js_label_door`, `js_label_battery`,
`js_label_last_update`. -/
structure JsLabels where
  stateLabel : String
  doorLabel : String
  batteryLabel : String
  lastUpdateLabel : String
  deriving DecidableEq

/-- The English labels of `STRINGS`. -/
def enLabels : JsLabels :=
  { stateLabel := "State: ", doorLabel := "Door: ",
    batteryLabel := "Battery: ", lastUpdateLabel := "Last update: " }

/-- The delimiter `parts.join(...)` uses, byte-for-byte as it appears in
the source file. -/
def summarySep : String := " ‚Ä¢ "

/-- The sentinel returned when no part was collected. -/
def noDataSentinel : String := "No state data available"

/-- `buildStateSummary(data)`: pushes the lock-state, door-state,
battery and timestamp fragments in that order, each only when its
source field is present, then joins them.  `fmtTs` abstracts
`formatTimestamp`, whose output depends on the browser's locale and
timezone database. -/
def buildStateSummary (ui : JsLabels) (fmtTs : JVal → String)
    (data : JVal) : String :=
  let parts : List String := []
  let parts :=
    if truthyOpt (data.getField "stateName") then
      parts ++ [ui.stateLabel ++ jsToStr (data.getField "stateName")
        ++ " (state=" ++ jsToStr (data.getField "state") ++ ")"]
    else if (data.getField "state").isSome then
      parts ++ [ui.stateLabel ++ "state=" ++ jsToStr (data.getField "state")]
    else parts
  let parts :=
    if truthyOpt (data.getField "doorStateName") then
      parts ++ [ui.doorLabel ++ jsToStr (data.getField "doorStateName")
        ++ " (doorState=" ++ jsToStr (data.getField "doorState") ++ ")"]
    else parts
  let parts :=
    match extractBatteryPercent data with
    | some n => parts ++ [ui.batteryLabel ++ toString n ++ "%"]
    | none =>
      if (data.getField "batteryCritical").isSome then
        parts ++ [ui.batteryLabel
          ++ (if truthyOpt (data.getField "batteryCritical") then "CRITICAL"
              else "OK")]
      else parts
  let parts :=
    if truthyOpt (data.getField "timestamp") then
      parts ++ [ui.lastUpdateLabel
        ++ fmtTs ((data.getField "timestamp").getD .jnull)]
    else parts
  if parts.isEmpty then noDataSentinel
  else String.intercalate summarySep parts

/-- The stable record `refreshState` assembles from the raw body (the
`normalized` object of the source); `none` stands for both a JS
`undefined` and an explicit `null` entry. -/
structure NormalizedState where
  state : Option JVal
  stateName : Option JVal
  doorState : Option JVal
  doorStateName : Option JVal
  batteryCritical : Option JVal
  batteryPercent : Option Int
  batteryRawField : Option JVal
  batteryStatusLabel : Option JVal
  trigger : Option JVal
  timestampRaw : Option JVal
  timestampLocal : Option String
  deriving DecidableEq

/-- The normalization step of `refreshState`: each output field reads
exactly one source field (directly or through its extractor), so fields
degrade independently and the construction is total. -/
def normalizeState (fmtTs : JVal → String) (data : JVal) :
    NormalizedState :=
  { state := data.getField "state",
    stateName := data.getField "stateName",
    doorState := data.getField "doorState",
    doorStateName := data.getField "doorStateName",
    batteryCritical := data.getField "batteryCritical",
    batteryPercent := extractBatteryPercent data,
    batteryRawField := data.getField "batteryChargeState",
    batteryStatusLabel := extractBatteryStatusLabel data,
    trigger := data.getField "trigger",
    timestampRaw := data.getField "timestamp",
    timestampLocal :=
      if truthyOpt (data.getField "timestamp") then
        some (fmtTs ((data.getField "timestamp").getD .jnull))
      else none }

end NukiWeb

namespace NukiWeb

/-- Spec-side battery strategy 1: a direct numeric `batteryCharge`. -/
def encDirect (data : JVal) : Option Int :=
  jsNumOpt (data.getField "batteryCharge")

/-- Spec-side battery strategy 2: a numeric `batteryChargeState`
(legacy flat encoding). -/
def encLegacyFlat (data : JVal) : Option Int :=
  jsNumOpt (data.getField "batteryChargeState")

/-- Spec-side battery strategy 3: a nested `batteryChargeState` value
with a numeric `chargeLevel`. -/
def encNested (data : JVal) : Option Int :=
  if truthyOpt (data.getField "batteryChargeState") then
    jsNumOpt (propOpt (data.getField "batteryChargeState") "chargeLevel")
  else none

/-- Spec-side battery strategy 4: a numeric `batteryLevel` (oldest
encoding). -/
def encOldest (data : JVal) : Option Int :=
  jsNumOpt (data.getField "batteryLevel")

/-- Error message template of `get_state`, a function of the upstream
outcome alone: `none` means the call returns the parsed body instead of
an error dict.  Every message is a fixed string plus at most the
numeric status; neither the token nor the URL can occur in it. -/
def stateErrorTemplate : TransportOutcome → Option String
  | .response resp =>
      if raisesForStatus resp.status then
        some ("Bridge returned HTTP " ++ toString resp.status
          ++ " for /lockState.")
      else
        match resp.jsonBody with
        | some _ => none
        | none => some "Unexpected error while talking to the bridge (/lockState)."
  | .connectionError =>
      some "Bridge unreachable (connection error while calling /lockState)."
  | .timeout => some "Bridge timeout while calling /lockState."
  | .otherException =>
      some "Unexpected error while talking to the bridge (/lockState)."

/-- Error message template of `send_action`, as `stateErrorTemplate`
but naming the `/lockAction` endpoint. -/
def actionErrorTemplate : TransportOutcome → Option String
  | .response resp =>
      if raisesForStatus resp.status then
        some ("Bridge returned HTTP " ++ toString resp.status
          ++ " for /lockAction.")
      else
        match resp.jsonBody with
        | some _ => none
        | none => some "Unexpected error while talking to the bridge (/lockAction)."
  | .connectionError =>
      some "Bridge unreachable (connection error while calling /lockAction)."
  | .timeout => some "Bridge timeout while calling /lockAction."
  | .otherException =>
      some "Unexpected error while talking to the bridge (/lockAction)."

/-- The classification claimed by the spec for `get_state`, following
its words: any HTTP status outside 200-299 becomes an
`UpstreamHttpError` carrying only the numeric status.  Stated for
comparison with the code, which defers to `raise_for_status` and hence
treats only 400-599 as HTTP errors. -/
def claimedStateResult : TransportOutcome → JVal
  | .response resp =>
      if 200 ≤ resp.status ∧ resp.status ≤ 299 then
        match resp.jsonBody with
        | some body => body
        | none => errObj "Unexpected error while talking to the bridge (/lockState)."
      else
        errObj ("Bridge returned HTTP " ++ toString resp.status
          ++ " for /lockState.")
  | .connectionError =>
      errObj "Bridge unreachable (connection error while calling /lockState)."
  | .timeout => errObj "Bridge timeout while calling /lockState."
  | .otherException =>
      errObj "Unexpected error while talking to the bridge (/lockState)."

/-- The amended classification `get_state` implements: connection
failures map to the unreachable message, read timeouts to the timeout
message, statuses 400-599 to the HTTP-error message with only the
numeric status, unparseable bodies and any other exception to the
unexpected message, and every other response (2xx, but also 1xx/3xx,
which `raise_for_status` does not treat as errors) to its parsed body,
returned unmodified. -/
def amendedStateClassify : TransportOutcome → JVal
  | .response resp =>
      if 400 ≤ resp.status ∧ resp.status < 600 then
        errObj ("Bridge returned HTTP " ++ toString resp.status
          ++ " for /lockState.")
      else
        match resp.jsonBody with
        | some body => body
        | none => errObj "Unexpected error while talking to the bridge (/lockState)."
  | .connectionError =>
      errObj "Bridge unreachable (connection error while calling /lockState)."
  | .timeout => errObj "Bridge timeout while calling /lockState."
  | .otherException =>
      errObj "Unexpected error while talking to the bridge (/lockState)."

/-- The amended classification `send_action` implements, as
`amendedStateClassify` with the `/lockAction` endpoint named in the
messages. -/
def amendedActionClassify : TransportOutcome → JVal
  | .response resp =>
      if 400 ≤ resp.status ∧ resp.status < 600 then
        errObj ("Bridge returned HTTP " ++ toString resp.status
          ++ " for /lockAction.")
      else
        match resp.jsonBody with
        | some body => body
        | none => errObj "Unexpected error while talking to the bridge (/lockAction)."
  | .connectionError =>
      errObj "Bridge unreachable (connection error while calling /lockAction)."
  | .timeout => errObj "Bridge timeout while calling /lockAction."
  | .otherException =>
      errObj "Unexpected error while talking to the bridge (/lockAction)."

/-- Spec-side lock-state fragment of the summary. -/
def lockFrag (ui : JsLabels) (data : JVal) : Option String :=
  if truthyOpt (data.getField "stateName") then
    some (ui.stateLabel ++ jsToStr (data.getField "stateName")
      ++ " (state=" ++ jsToStr (data.getField "state") ++ ")")
  else if (data.getField "state").isSome then
    some (ui.stateLabel ++ "state=" ++ jsToStr (data.getField "state"))
  else none

/-- Spec-side door-state fragment of the summary. -/
def doorFrag (ui : JsLabels) (data : JVal) : Option String :=
  if truthyOpt (data.getField "doorStateName") then
    some (ui.doorLabel ++ jsToStr (data.getField "doorStateName")
      ++ " (doorState=" ++ jsToStr (data.getField "doorState") ++ ")")
  else none

/-- Spec-side battery fragment of the summary: percent when one of the
four encodings matched, else the critical flag when present. -/
def battFrag (ui : JsLabels) (data : JVal) : Option String :=
  match extractBatteryPercent data with
  | some n => some (ui.batteryLabel ++ toString n ++ "%")
  | none =>
    if (data.getField "batteryCritical").isSome then
      some (ui.batteryLabel
        ++ (if truthyOpt (data.getField "batteryCritical") then "CRITICAL"
            else "OK"))
    else none

/-- Spec-side timestamp fragment of the summary. -/
def timeFrag (ui : JsLabels) (fmtTs : JVal → String) (data : JVal) :
    Option String :=
  if truthyOpt (data.getField "timestamp") then
    some (ui.lastUpdateLabel ++ fmtTs ((data.getField "timestamp").getD .jnull))
  else none

/-- The summary as the spec words it: the four fragments in the fixed
order lock, door, battery, timestamp, keeping exactly the present ones,
joined by the fixed delimiter, with the no-data sentinel when all four
are absent. -/
def specSummary (ui : JsLabels) (fmtTs : JVal → String) (data : JVal) :
    String :=
  let parts := [lockFrag ui data, doorFrag ui data, battFrag ui data,
    timeFrag ui fmtTs data].filterMap id
  if parts.isEmpty then noDataSentinel
  else String.intercalate summarySep parts

/-- A concrete configuration used by the closed witnesses. -/
def cfg0 : Config :=
  { bridgeHost := "127.0.0.1", bridgePort := 80, nukiId := 7,
    token := "secret-token-A", deviceType := 0 }

/-- A second configuration differing from `cfg0` in every
identity-carrying field, for the noninterference witness. -/
def cfg1 : Config :=
  { bridgeHost := "10.0.0.9", bridgePort := 81, nukiId := 9,
    token := "secret-token-B", deviceType := 4 }

/-- A transport in which every call fails with a connection error. -/
def connTr : Request → TransportOutcome := fun _ => .connectionError

end NukiWeb

namespace NukiWeb

/-- Shared helper: a concrete timestamp formatter standing in for the
browser's `formatTimestamp` in closed witnesses. -/
def tsFmt : JVal → String := fun v => jsToStr (some v)

/-- Shared helper: `get_state` equals the amended outcome classifier
applied to what the transport did with the `/lockState` request. -/
theorem get_state_eq_classify (cfg : Config)
    (tr : Request → TransportOutcome) :
    get_state cfg tr = amendedStateClassify (tr (stateRequest cfg)) := by
  cases hto : tr (stateRequest cfg) with
  | response resp =>
      simp only [get_state, amendedStateClassify, hto, raisesForStatus]
      by_cases h : 400 ≤ resp.status ∧ resp.status < 600 <;> simp [h]
  | connectionError => simp [get_state, amendedStateClassify, hto]
  | timeout => simp [get_state, amendedStateClassify, hto]
  | otherException => simp [get_state, amendedStateClassify, hto]

/-- Shared helper: `send_action` equals the amended outcome classifier
applied to what the transport did with the `/lockAction` request. -/
theorem send_action_eq_classify (cfg : Config) (a : Int)
    (tr : Request → TransportOutcome) :
    send_action cfg a tr = amendedActionClassify (tr (actionRequest cfg a)) := by
  cases hto : tr (actionRequest cfg a) with
  | response resp =>
      simp only [send_action, amendedActionClassify, hto, raisesForStatus]
      by_cases h : 400 ≤ resp.status ∧ resp.status < 600 <;> simp [h]
  | connectionError => simp [send_action, amendedActionClassify, hto]
  | timeout => simp [send_action, amendedActionClassify, hto]
  | otherException => simp [send_action, amendedActionClassify, hto]

/-- Shared helper: whenever the fixed state-error template fires, the
classifier returns exactly that error dict. -/
theorem amendedStateClassify_of_template (o : TransportOutcome) (msg : String)
    (h : stateErrorTemplate o = some msg) :
    amendedStateClassify o = errObj msg := by
  cases o with
  | response resp =>
      simp only [stateErrorTemplate, raisesForStatus] at h
      simp only [amendedStateClassify]
      by_cases hr : 400 ≤ resp.status ∧ resp.status < 600 <;>
        simp only [hr, decide_eq_true_eq, iff_true, iff_false] at h ⊢ <;>
        [skip; cases hb : resp.jsonBody] <;> simp_all
  | connectionError => simp_all [stateErrorTemplate, amendedStateClassify]
  | timeout => simp_all [stateErrorTemplate, amendedStateClassify]
  | otherException => simp_all [stateErrorTemplate, amendedStateClassify]

/-- Shared helper: whenever the fixed action-error template fires, the
classifier returns exactly that error dict. -/
theorem amendedActionClassify_of_template (o : TransportOutcome) (msg : String)
    (h : actionErrorTemplate o = some msg) :
    amendedActionClassify o = errObj msg := by
  cases o with
  | response resp =>
      simp only [actionErrorTemplate, raisesForStatus] at h
      simp only [amendedActionClassify]
      by_cases hr : 400 ≤ resp.status ∧ resp.status < 600 <;>
        simp only [hr, decide_eq_true_eq, iff_true, iff_false] at h ⊢ <;>
        [skip; cases hb : resp.jsonBody] <;> simp_all
  | connectionError => simp_all [actionErrorTemplate, amendedActionClassify]
  | timeout => simp_all [actionErrorTemplate, amendedActionClassify]
  | otherException => simp_all [actionErrorTemplate, amendedActionClassify]

/-- C9: `get_state` issues its GET with a fixed read timeout of 10
seconds, `send_action` with a fixed timeout of 20 seconds, and the
action timeout is strictly longer than the state-query timeout. -/
theorem fixed_timeouts (cfg : Config) (a : Int) :
    (stateRequest cfg).timeout = 10
    ∧ (actionRequest cfg a).timeout = 20
    ∧ (stateRequest cfg).timeout < (actionRequest cfg a).timeout := by
  refine ⟨rfl, rfl, ?_⟩
  show 10 < 20
  decide

/-- C3 counterexample: a final 304 response (a status outside 200-299)
is not classified as an HTTP error: `raise_for_status` raises only for
400-599, so `get_state` parses and returns the body instead of the
`UpstreamHttpError` result the claim requires. -/
theorem non2xx_not_http_error_cex :
    get_state cfg0 (fun _ => .response ⟨304, some (.jobj .fnil)⟩)
      = .jobj .fnil
    ∧ claimedStateResult (.response ⟨304, some (.jobj .fnil)⟩)
      = errObj "Bridge returned HTTP 304 for /lockState."
    ∧ get_state cfg0 (fun _ => .response ⟨304, some (.jobj .fnil)⟩)
      ≠ claimedStateResult (.response ⟨304, some (.jobj .fnil)⟩) :=
  ⟨by decide, by decide, by decide⟩

/-- C3 amended: both helpers classify connection failures as
unreachable, read timeouts as timeout, statuses 400-599 as an HTTP
error carrying only the numeric status, unparseable bodies and all
other exceptions as unexpected, and return the parsed body unmodified
for every remaining response (2xx, and also the 1xx/3xx statuses that
`raise_for_status` does not treat as errors). -/
theorem bridge_error_classification_amended (cfg : Config) (a : Int)
    (tr : Request → TransportOutcome) :
    get_state cfg tr = amendedStateClassify (tr (stateRequest cfg))
    ∧ send_action cfg a tr = amendedActionClassify (tr (actionRequest cfg a)) :=
  ⟨get_state_eq_classify cfg tr, send_action_eq_classify cfg a tr⟩

/-- C1: the value either bridge helper returns is a function of the
upstream outcome alone - two runs whose transports react identically
agree even when host, port, device identity and secret token all
differ - and on every error path the returned dict is exactly the fixed
template message for that outcome, which mentions at most the numeric
status and the endpoint name, never the token or the URL. -/
theorem bridge_token_noninterference (cfg cfg' : Config)
    (tr tr' : Request → TransportOutcome) (a : Int)
    (hs : tr (stateRequest cfg) = tr' (stateRequest cfg'))
    (ha : tr (actionRequest cfg a) = tr' (actionRequest cfg' a)) :
    get_state cfg tr = get_state cfg' tr'
    ∧ send_action cfg a tr = send_action cfg' a tr'
    ∧ (∀ msg, stateErrorTemplate (tr (stateRequest cfg)) = some msg →
        get_state cfg tr = errObj msg)
    ∧ (∀ msg, actionErrorTemplate (tr (actionRequest cfg a)) = some msg →
        send_action cfg a tr = errObj msg) := by
  refine ⟨?_, ?_, ?_, ?_⟩
  · rw [get_state_eq_classify, get_state_eq_classify, hs]
  · rw [send_action_eq_classify, send_action_eq_classify, ha]
  · intro msg h
    rw [get_state_eq_classify]
    exact amendedStateClassify_of_template _ _ h
  · intro msg h
    rw [send_action_eq_classify]
    exact amendedActionClassify_of_template _ _ h

/-- Witness for C1: two configurations differing in every
identity-carrying field, under a transport that always fails with a
connection error, produce identical results, and the state result is
exactly the fixed unreachable message. -/
theorem bridge_token_noninterference_witness :
    get_state cfg0 connTr = get_state cfg1 connTr
    ∧ send_action cfg0 2 connTr = send_action cfg1 2 connTr
    ∧ get_state cfg0 connTr
      = errObj "Bridge unreachable (connection error while calling /lockState)." := by
  obtain ⟨h1, h2, h3, -⟩ :=
    bridge_token_noninterference cfg0 cfg1 connTr connTr 2 rfl rfl
  exact ⟨h1, h2, h3 _ rfl⟩

end NukiWeb

namespace NukiWeb

/-- C2: on every raw object `extractBatteryPercent` returns the value
of the highest-priority battery encoding present, trying direct numeric
`batteryCharge`, then numeric `batteryChargeState`, then a nested
`batteryChargeState` with numeric `chargeLevel`, then numeric
`batteryLevel`, first match winning; when all four strategies miss -
whatever other fields exist - the chain yields `none`. -/
theorem extractBatteryPercent_priority_order (fs : JFields) :
    extractBatteryPercent (.jobj fs)
      = ((encDirect (.jobj fs)).orElse fun _ =>
         (encLegacyFlat (.jobj fs)).orElse fun _ =>
         (encNested (.jobj fs)).orElse fun _ =>
         encOldest (.jobj fs)) := by
  simp only [extractBatteryPercent, encDirect, encLegacyFlat, encNested,
    encOldest]
  cases jsNumOpt ((JVal.jobj fs).getField "batteryCharge") <;>
    cases jsNumOpt ((JVal.jobj fs).getField "batteryChargeState") <;>
      cases (if truthyOpt ((JVal.jobj fs).getField "batteryChargeState") then
               jsNumOpt (propOpt ((JVal.jobj fs).getField "batteryChargeState")
                 "chargeLevel")
             else none) <;>
        simp [Option.orElse]

/-- C4: `batteryClass` is a pure function of the percent and raw
critical-flag inputs: a strict `true` critical flag forces `"danger"`
whatever the percent (including 100); with both inputs absent it
returns `""`, the class string rendered as the unknown severity (no
color class); otherwise percents up to 20 give `"danger"`, 21 to 40
give `"warn"`, and above 40 give `"ok"`. -/
theorem batteryClass_severity_spec :
    (∀ p : Option Int, batteryClass p (some (.jbool true)) = "danger")
    ∧ batteryClass none none = ""
    ∧ (∀ (c : Option JVal) (p : Int), c ≠ some (.jbool true) → p ≤ 20 →
        batteryClass (some p) c = "danger")
    ∧ (∀ (c : Option JVal) (p : Int), c ≠ some (.jbool true) → 20 < p →
        p ≤ 40 → batteryClass (some p) c = "warn")
    ∧ (∀ (c : Option JVal) (p : Int), c ≠ some (.jbool true) → 40 < p →
        batteryClass (some p) c = "ok") := by
  refine ⟨fun p => rfl, rfl, ?_, ?_, ?_⟩
  · intro c p hc hp
    simp only [batteryClass, if_neg hc]
    rw [if_pos hp]
  · intro c p hc hp1 hp2
    simp only [batteryClass, if_neg hc]
    rw [if_neg (by omega), if_pos hp2]
  · intro c p hc hp
    simp only [batteryClass, if_neg hc]
    rw [if_neg (by omega), if_neg (by omega)]

/-- Witness for C4 at the boundary percents named by the claim. -/
theorem batteryClass_severity_spec_witness :
    batteryClass (some 100) (some (.jbool true)) = "danger"
    ∧ batteryClass (some 20) none = "danger"
    ∧ batteryClass (some 21) none = "warn"
    ∧ batteryClass (some 41) none = "ok" :=
  ⟨batteryClass_severity_spec.1 (some 100),
   batteryClass_severity_spec.2.2.1 none 20 (by decide) (by decide),
   batteryClass_severity_spec.2.2.2.1 none 21 (by decide) (by decide)
     (by decide),
   batteryClass_severity_spec.2.2.2.2 none 41 (by decide) (by decide)⟩

/-- C5: any command name outside the dispatch table is rejected locally
with the localized unknown-command message: no upstream request is
issued and `send_action` is never reached. -/
theorem unknown_command_local_rejection (cfg : Config) (dl : String)
    (la : Option String) (cmd : String) (tr : Request → TransportOutcome)
    (h : mapping.lookup cmd = none) :
    action cfg dl la cmd tr
      = ([], some ⟨(uiOf (resolve_lang dl la)).unknownCommandMsg,
          resolve_lang dl la⟩) := by
  simp [action, h]

/-- Witness for C5 at a concrete unmapped command name. -/
theorem unknown_command_local_rejection_witness :
    action cfg0 "en" none "frobnicate" connTr
      = ([], some ⟨"Error: unknown command.", "en"⟩) :=
  (unknown_command_local_rejection cfg0 "en" none "frobnicate" connTr
    (by decide)).trans (by decide)

end NukiWeb

namespace NukiWeb

/-- Shared helper: the dispatch table as an explicit case split on the
command name. -/
theorem mapping_lookup_eq (cmd : String) :
    mapping.lookup cmd
      = (if cmd = "sblocca" then some 1
         else if cmd = "chiudi" then some 2
         else if cmd = "apri" then some 3
         else if cmd = "lockngo" then some 4
         else none) := by
  by_cases h1 : cmd = "sblocca"
  · subst h1; decide
  by_cases h2 : cmd = "chiudi"
  · subst h2; decide
  by_cases h3 : cmd = "apri"
  · subst h3; decide
  by_cases h4 : cmd = "lockngo"
  · subst h4; decide
  rw [if_neg h1, if_neg h2, if_neg h3, if_neg h4]
  simp only [mapping, List.lookup]
  rw [beq_eq_false_iff_ne.mpr h1, beq_eq_false_iff_ne.mpr h2,
    beq_eq_false_iff_ne.mpr h3, beq_eq_false_iff_ne.mpr h4]

/-- Shared helper: every code the dispatch table can produce is one of
the four wired wire codes; in particular code 5 is unreachable. -/
theorem mapping_code_range (cmd : String) (code : Int)
    (h : mapping.lookup cmd = some code) :
    code = 1 ∨ code = 2 ∨ code = 3 ∨ code = 4 := by
  rw [mapping_lookup_eq] at h
  split_ifs at h <;> simp_all

/-- C6 counterexample: the exposed command names are the Italian route
segments, so the literal name "unlatch" is not in the dispatch table:
the request is rejected locally with the unknown-command outcome and no
upstream request is issued, contradicting the claim that "unlatch" is
accepted and dispatched as wire code 3. -/
theorem unlatch_name_rejected_cex :
    mapping.lookup "unlatch" = none
    ∧ action cfg0 "en" none "unlatch" connTr
        = ([], some ⟨"Error: unknown command.", "en"⟩) :=
  ⟨by decide, by decide⟩

/-- C6 amended: the dispatcher accepts exactly the four command names
"sblocca" (unlock), "chiudi" (lock), "apri" (unlatch) and "lockngo"
(lock-and-go); dispatching "apri" issues exactly one upstream request,
carrying wire action code 3; and every upstream request any command can
issue carries one of the wire codes 1-4, so code 5
(lock-and-go-then-unlatch) is unreachable. -/
theorem action_dispatch_amended (cfg : Config) (dl : String)
    (la : Option String) (tr : Request → TransportOutcome) :
    (∀ cmd, (mapping.lookup cmd).isSome = true
        ↔ (cmd = "sblocca" ∨ cmd = "chiudi" ∨ cmd = "apri"
           ∨ cmd = "lockngo"))
    ∧ (action cfg dl la "apri" tr).1 = [actionRequest cfg 3]
    ∧ (∀ cmd req, req ∈ (action cfg dl la cmd tr).1 →
        req = actionRequest cfg 1 ∨ req = actionRequest cfg 2
        ∨ req = actionRequest cfg 3 ∨ req = actionRequest cfg 4) := by
  refine ⟨?_, rfl, ?_⟩
  · intro cmd
    rw [mapping_lookup_eq]
    split_ifs <;> simp_all
  · intro cmd req hreq
    rcases hm : mapping.lookup cmd with _ | code
    · simp [action, hm] at hreq
    · simp [action, hm] at hreq
      subst hreq
      rcases mapping_code_range cmd code hm with h | h | h | h <;>
        subst h <;> tauto

/-- Witness for C6 at the "apri" and "chiudi" commands under the
connection-failing transport. -/
theorem action_dispatch_amended_witness :
    (action cfg0 "en" none "apri" connTr).1 = [actionRequest cfg0 3]
    ∧ (actionRequest cfg0 2 = actionRequest cfg0 1
       ∨ actionRequest cfg0 2 = actionRequest cfg0 2
       ∨ actionRequest cfg0 2 = actionRequest cfg0 3
       ∨ actionRequest cfg0 2 = actionRequest cfg0 4) :=
  ⟨(action_dispatch_amended cfg0 "en" none connTr).2.1,
   (action_dispatch_amended cfg0 "en" none connTr).2.2 "chiudi"
     (actionRequest cfg0 2) (by decide)⟩

/-- C10: the dispatcher separates success from failure only by the
presence of the "error" key in the dict `send_action` returns, so an
upstream call that succeeds with a 2xx status but whose JSON body
itself carries an "error" key is reported with the error-prefixed
bridge-failure message - not as a success and not as a raw-response
echo - even when the body also says `success: true`. -/
theorem error_key_overrides_success (cfg : Config) (dl : String)
    (la : Option String) (cmd : String) (code : Int) (s : Nat)
    (fs : JFields) (e : JVal) (tr : Request → TransportOutcome)
    (hcmd : mapping.lookup cmd = some code)
    (htr : tr (actionRequest cfg code) = .response ⟨s, some (.jobj fs)⟩)
    (h2a : 200 ≤ s) (h2b : s ≤ 299)
    (herr : fs.lookup "error" = some e) :
    action cfg dl la cmd tr
      = ([actionRequest cfg code],
         some ⟨(uiOf (resolve_lang dl la)).bridgeErrorLead ++ pyStr e,
           resolve_lang dl la⟩) := by
  have hnr : raisesForStatus s = false := by
    simp only [raisesForStatus, decide_eq_false_iff_not]
    omega
  simp [action, hcmd, send_action, htr, hnr, pyIn, JFields.hasKey, herr,
    pyGetItem]

/-- Witness for C10: a 200 response whose body contains both
`success: true` and an "error" entry is reported as a bridge error. -/
theorem error_key_overrides_success_witness :
    action cfg0 "en" none "sblocca"
        (fun _ => .response ⟨200, some (.jobj (.fcons "success" (.jbool true)
          (.fcons "error" (.jstr "boom") .fnil)))⟩)
      = ([actionRequest cfg0 1], some ⟨"Error: boom", "en"⟩) :=
  (error_key_overrides_success cfg0 "en" none "sblocca" 1 200
    (.fcons "success" (.jbool true) (.fcons "error" (.jstr "boom") .fnil))
    (.jstr "boom")
    (fun _ => .response ⟨200, some (.jobj (.fcons "success" (.jbool true)
      (.fcons "error" (.jstr "boom") .fnil)))⟩)
    (by decide) rfl (by decide) (by decide) (by decide)).trans (by decide)

end NukiWeb

namespace NukiWeb

/-- Shared helper: a guarded double push onto the parts list is an
append of the matching optional fragment. -/
theorem push_two (c1 c2 : Bool) (l : List String) (x y : String) :
    (if c1 then l ++ [x] else if c2 then l ++ [y] else l)
      = l ++ (if c1 then some x else if c2 then some y else none).toList := by
  cases c1 <;> cases c2 <;> simp

/-- Shared helper: a guarded single push onto the parts list is an
append of the matching optional fragment. -/
theorem push_one (c : Bool) (l : List String) (x : String) :
    (if c then l ++ [x] else l)
      = l ++ (if c then some x else none).toList := by
  cases c <;> simp

/-- Shared helper: filtering the four optional fragments is appending
their option-to-list images in order. -/
theorem filterMap_id_four (o1 o2 o3 o4 : Option String) :
    [o1, o2, o3, o4].filterMap id
      = o1.toList ++ o2.toList ++ o3.toList ++ o4.toList := by
  cases o1 <;> cases o2 <;> cases o3 <;> cases o4 <;> simp

/-- C7: `buildStateSummary` equals the spec-side composition of the
four fragment extractors - always in the fixed order lock-state,
door-state, battery, timestamp, keeping exactly the present fragments,
joined by the fixed delimiter; the empty object yields the no-data
sentinel; and an object carrying only a (truthy) timestamp yields a
summary that is exactly the timestamp fragment. -/
theorem buildStateSummary_spec :
    (∀ (ui : JsLabels) (fmtTs : JVal → String) (fs : JFields),
        buildStateSummary ui fmtTs (.jobj fs)
          = specSummary ui fmtTs (.jobj fs))
    ∧ (∀ (ui : JsLabels) (fmtTs : JVal → String),
        buildStateSummary ui fmtTs (.jobj .fnil) = noDataSentinel)
    ∧ (∀ (ui : JsLabels) (fmtTs : JVal → String) (ts : JVal),
        truthy ts = true →
        buildStateSummary ui fmtTs (.jobj (.fcons "timestamp" ts .fnil))
          = ui.lastUpdateLabel ++ fmtTs ts) := by
  refine ⟨?_, ?_, ?_⟩
  · intro ui fmtTs fs
    cases hb : extractBatteryPercent (.jobj fs) with
    | none =>
        simp only [buildStateSummary, hb, push_two]
        simp only [push_one]
        simp only [specSummary, lockFrag, doorFrag, battFrag, timeFrag, hb,
          filterMap_id_four, List.nil_append]
    | some n =>
        simp only [buildStateSummary, hb, push_two]
        simp only [push_one]
        simp only [specSummary, lockFrag, doorFrag, battFrag, timeFrag, hb,
          filterMap_id_four, List.nil_append, Option.toList_some]
  · intro ui fmtTs
    rfl
  · intro ui fmtTs ts hts
    simp [buildStateSummary, JVal.getField, JFields.lookup, truthyOpt,
      extractBatteryPercent, jsNumOpt, propOpt, hts, String.intercalate]
    rfl

/-- Witness for C7 at a concrete timestamp-only object under a concrete
formatter. -/
theorem buildStateSummary_spec_witness :
    buildStateSummary enLabels tsFmt
        (.jobj (.fcons "timestamp" (.jstr "2026-02-25T10:00:00") .fnil))
      = enLabels.lastUpdateLabel ++ tsFmt (.jstr "2026-02-25T10:00:00") :=
  buildStateSummary_spec.2.2 enLabels tsFmt (.jstr "2026-02-25T10:00:00")
    (by decide)

/-- C8: the normalization step of `refreshState` is a total function of
the raw object and degrades field by field: every output field equals
its own extractor applied to the raw input (so a missing or wrongly
typed source field empties only that field and can never fail the
whole record), the empty object normalizes to the all-absent record,
and a wrongly typed battery field yields an absent percent while still
being echoed raw. -/
theorem normalizeState_total_fieldwise :
    (∀ (fmtTs : JVal → String) (fs : JFields),
        (normalizeState fmtTs (.jobj fs)).state
            = (JVal.jobj fs).getField "state"
        ∧ (normalizeState fmtTs (.jobj fs)).stateName
            = (JVal.jobj fs).getField "stateName"
        ∧ (normalizeState fmtTs (.jobj fs)).doorState
            = (JVal.jobj fs).getField "doorState"
        ∧ (normalizeState fmtTs (.jobj fs)).doorStateName
            = (JVal.jobj fs).getField "doorStateName"
        ∧ (normalizeState fmtTs (.jobj fs)).batteryCritical
            = (JVal.jobj fs).getField "batteryCritical"
        ∧ (normalizeState fmtTs (.jobj fs)).batteryPercent
            = extractBatteryPercent (.jobj fs)
        ∧ (normalizeState fmtTs (.jobj fs)).batteryRawField
            = (JVal.jobj fs).getField "batteryChargeState"
        ∧ (normalizeState fmtTs (.jobj fs)).batteryStatusLabel
            = extractBatteryStatusLabel (.jobj fs)
        ∧ (normalizeState fmtTs (.jobj fs)).trigger
            = (JVal.jobj fs).getField "trigger"
        ∧ (normalizeState fmtTs (.jobj fs)).timestampRaw
            = (JVal.jobj fs).getField "timestamp"
        ∧ (normalizeState fmtTs (.jobj fs)).timestampLocal
            = (if truthyOpt ((JVal.jobj fs).getField "timestamp") then
                 some (fmtTs (((JVal.jobj fs).getField "timestamp").getD
                   .jnull))
               else none))
    ∧ (∀ fmtTs : JVal → String,
        normalizeState fmtTs (.jobj .fnil)
          = { state := none, stateName := none, doorState := none,
              doorStateName := none, batteryCritical := none,
              batteryPercent := none, batteryRawField := none,
              batteryStatusLabel := none, trigger := none,
              timestampRaw := none, timestampLocal := none })
    ∧ (∀ fmtTs : JVal → String,
        (normalizeState fmtTs
            (.jobj (.fcons "batteryChargeState" (.jstr "weird") .fnil)))
          = { state := none, stateName := none, doorState := none,
              doorStateName := none, batteryCritical := none,
              batteryPercent := none,
              batteryRawField := some (.jstr "weird"),
              batteryStatusLabel := none, trigger := none,
              timestampRaw := none, timestampLocal := none }) :=
  ⟨fun _fmtTs _fs =>
    ⟨rfl, rfl, rfl, rfl, rfl, rfl, rfl, rfl, rfl, rfl, rfl⟩,
   fun _fmtTs => rfl, fun _fmtTs => rfl⟩

end NukiWeb
